import Mathlib

/-!
Verification development for the tuihost SSH gateway.

Shallow embedding of the per-connection session handler (src/handler.rs), the
connection supervisor / entry point (src/server.rs) and the PTY adapter
boundary (src/pty.rs).  Machine integers are modelled as `Nat` with explicit
reduction modulo `2 ^ w` at the points where the Rust code truncates or may
wrap (the `as u16` cast in `clamp_pty_size`, the `AtomicUsize`
`fetch_add`/`fetch_sub` pair that maintains the active-connection counter).
External collaborators (the russh protocol engine, the OS spawn) are modelled
as oracles: the outcome of `PtySession::spawn` is a boolean parameter, and the
effects the handler requests from the engine (channel success/failure,
disconnect, task spawn) are recorded as an explicit action list.
-/

namespace Tuihost

/-- PTY size bounds, src/handler.rs lines 11-14. -/
def MIN_PTY_COLS : Nat := 10

/-- PTY size bounds, src/handler.rs lines 11-14. -/
def MAX_PTY_COLS : Nat := 500

/-- PTY size bounds, src/handler.rs lines 11-14. -/
def MIN_PTY_ROWS : Nat := 5

/-- PTY size bounds, src/handler.rs lines 11-14. -/
def MAX_PTY_ROWS : Nat := 200

/-- Modulus of Rust `u16`; the `as u16` cast reduces modulo this value. -/
def U16_MOD : Nat := 2 ^ 16

/-- Modulus of Rust `usize` on the 64-bit targets this server runs on;
`AtomicUsize::fetch_sub` wraps modulo this value. -/
def USIZE_MOD : Nat := 2 ^ 64

/-- Rust `Ord::clamp` on unsigned integers: values below `lo` become `lo`,
values above `hi` become `hi`, everything else is unchanged. -/
def clampNat (x lo hi : Nat) : Nat :=
  if x < lo then lo else if hi < x then hi else x

/-- `SessionHandler::clamp_pty_size` (src/handler.rs lines 41-45): each
requested `u32` dimension is first cast to `u16` (truncation modulo `2 ^ 16`)
and then clamped to the configured bounds. -/
def clamp_pty_size (cols rows : Nat) : Nat × Nat :=
  (clampNat (cols % U16_MOD) MIN_PTY_COLS MAX_PTY_COLS,
   clampNat (rows % U16_MOD) MIN_PTY_ROWS MAX_PTY_ROWS)

/-- `CmdConfig` (src/server.rs lines 9-14): the immutable command
specification shared by every session. -/
structure CmdConfig where
  command : String
  args : List String
  env : List (String × String)
deriving DecidableEq

/-- `SessionHandler` (src/handler.rs lines 16-23).  `pty_writers` keeps the
set of channel ids that currently hold a live PTY write handle (the key set of
the `HashMap<ChannelId, Arc<Mutex<PtyWriter>>>`); `active_connections` is the
handler's view of the shared `AtomicUsize` counter value. -/
structure SessionHandler where
  tui_config : CmdConfig
  pty_size : Nat × Nat
  pty_writers : List Nat
  client_addr : String
  active_connections : Nat
  shell_requested : Bool
deriving DecidableEq

/-- `SessionHandler::new` (src/handler.rs lines 26-39): fresh handler with
default 80x24 PTY size, empty writer map and a cleared shell flag. -/
def SessionHandler.new (tui_config : CmdConfig) (client_addr : String)
    (active_connections : Nat) : SessionHandler :=
  { tui_config := tui_config
    pty_size := (80, 24)
    pty_writers := []
    client_addr := client_addr
    active_connections := active_connections
    shell_requested := false }

/-- Observable effects a handler callback requests from the russh engine or
the OS, in program order.  `spawnAttempt` marks a call to
`PtySession::spawn`; `processSpawned` marks that the call succeeded and a
child process now exists. -/
inductive SessionAction where
  | spawnAttempt
  | processSpawned
  | channelSuccess (ch : Nat)
  | channelFailure (ch : Nat)
  | startForwardTask (ch : Nat)
  | logSecurity (msg : String)
  | disconnect (reason : String)
deriving DecidableEq

/-- The security-tagged log line of the duplicate-shell branch
(src/handler.rs lines 131-134). -/
def dupMsg (addr : String) : String :=
  "SECURITY: duplicate shell request from " ++ addr ++ " - disconnecting"

/-- `SessionHandler::shell_request` (src/handler.rs lines 125-205).  The
outcome of `PtySession::spawn` is the oracle `spawnOk`.  On a duplicate
request: security log, disconnect with reason "duplicate shell request", no
spawn.  Otherwise the one-shot flag is set *before* the spawn is attempted;
on spawn failure the handler answers `channel_failure` and returns; on success
it answers `channel_success`, stores the write handle under the channel id and
starts the background forwarding task. -/
def shell_request (h : SessionHandler) (channel : Nat) (spawnOk : Bool) :
    SessionHandler × List SessionAction :=
  if h.shell_requested then
    (h, [SessionAction.logSecurity (dupMsg h.client_addr),
         SessionAction.disconnect "duplicate shell request"])
  else
    let h1 : SessionHandler := { h with shell_requested := true }
    if spawnOk then
      ({ h1 with pty_writers := h1.pty_writers.insert channel },
       [SessionAction.spawnAttempt, SessionAction.processSpawned,
        SessionAction.channelSuccess channel,
        SessionAction.startForwardTask channel])
    else
      (h1, [SessionAction.spawnAttempt, SessionAction.channelFailure channel])

/-- Run a sequence of shell requests (channel id, spawn oracle) against one
handler, concatenating the requested actions in order. -/
def runShellRequests (h : SessionHandler) :
    List (Nat × Bool) → SessionHandler × List SessionAction
  | [] => (h, [])
  | e :: rest =>
    let s1 := shell_request h e.1 e.2
    let s2 := runShellRequests s1.1 rest
    (s2.1, s1.2 ++ s2.2)

/-- Is this action a call to `PtySession::spawn`? -/
def isSpawnAttempt : SessionAction → Bool
  | SessionAction.spawnAttempt => true
  | _ => false

/-- Is this action a successful child-process creation? -/
def isProcessSpawned : SessionAction → Bool
  | SessionAction.processSpawned => true
  | _ => false

/-- Is this action a transport disconnect? -/
def isDisconnect : SessionAction → Bool
  | SessionAction.disconnect _ => true
  | _ => false

/-- Is this action the start of a background forwarding task? -/
def isForwardTask : SessionAction → Bool
  | SessionAction.startForwardTask _ => true
  | _ => false

/-- `AtomicUsize::fetch_add(1, SeqCst)`: returns the updated cell and the
previous value. -/
def fetchAdd (c : Nat) : Nat × Nat := ((c + 1) % USIZE_MOD, c)

/-- `AtomicUsize::fetch_sub(1, SeqCst)`: wrapping decrement; returns the
updated cell and the previous value. -/
def fetchSub (c : Nat) : Nat × Nat := ((c + (USIZE_MOD - 1)) % USIZE_MOD, c)

/-- What `TuiSshServer::new_client` hands back: the updated shared counter,
whether the over-limit warning branch ran, and the `SessionHandler` it
constructs and returns to the protocol engine. -/
structure NewClientResult where
  counter : Nat
  limitWarned : Bool
  handler : SessionHandler
deriving DecidableEq

/-- `TuiSshServer::new_client` (src/server.rs lines 41-66): unconditionally
`fetch_add` the counter; if a nonzero maximum is configured and the
pre-increment value already reaches it, warn and `fetch_sub` the counter back;
then — on both paths — construct a `SessionHandler` sharing the counter and
return it to the engine. -/
def new_client (cfg : CmdConfig) (max_connections : Nat) (counter : Nat)
    (addr : String) : NewClientResult :=
  let fa := fetchAdd counter
  let current := fa.2
  let over := 0 < max_connections ∧ max_connections ≤ current
  let c2 := if over then (fetchSub fa.1).1 else fa.1
  { counter := c2
    limitWarned := decide over
    handler := SessionHandler.new cfg addr c2 }

/-- `impl Drop for SessionHandler` (src/handler.rs lines 49-58): one wrapping
`fetch_sub` on the shared counter.  (The drop also logs `prev - 1`, a `usize`
subtraction that underflows when `prev = 0`.) -/
def sessionHandlerDrop (counter : Nat) : Nat := (fetchSub counter).1

/-- Server-level state for connection accounting traces: the shared counter
cell and the number of constructed, not-yet-dropped handlers. -/
structure ServerSt where
  counter : Nat
  alive : Nat
deriving DecidableEq

/-- A connection-accounting event: a connection arrival (`new_client` runs) or
the drop of one previously constructed handler. -/
inductive ConnEv where
  | arrive
  | dropHandler
deriving DecidableEq

/-- One step of the connection-accounting trace.  An arrival runs
`new_client` (which always constructs a handler); a drop runs the handler's
`Drop` decrement, provided a constructed handler is still alive. -/
def serverStep (cfg : CmdConfig) (maxc : Nat) (st : ServerSt) :
    ConnEv → ServerSt
  | ConnEv.arrive =>
    { counter := (new_client cfg maxc st.counter "peer").counter
      alive := st.alive + 1 }
  | ConnEv.dropHandler =>
    if 0 < st.alive then
      { counter := sessionHandlerDrop st.counter, alive := st.alive - 1 }
    else st

/-- Run a whole connection-accounting trace. -/
def runServer (cfg : CmdConfig) (maxc : Nat) (st : ServerSt) :
    List ConnEv → ServerSt
  | [] => st
  | e :: rest => runServer cfg maxc (serverStep cfg maxc st e) rest

/-- The Unicode replacement character emitted by lossy UTF-8 decoding. -/
def replacementChar : Char := Char.ofNat 0xFFFD

/-- Is `b` a UTF-8 continuation byte (`10xxxxxx`)? -/
def isContByte (b : Nat) : Bool := 0x80 ≤ b && b < 0xC0

/-- Model of Rust `String::from_utf8_lossy` (std collaborator used by
`exec_request` at src/handler.rs line 287): a total decoder over arbitrary
byte lists; well-formed UTF-8 sequences decode to their code point, every
malformed sequence contributes a replacement character and the decoder moves
on.  Totality — decoding can never fail — is what the handler relies on. -/
def utf8LossyDecode : List Nat → List Char
  | [] => []
  | b :: rest =>
    if b < 0x80 then Char.ofNat b :: utf8LossyDecode rest
    else if b < 0xC2 then replacementChar :: utf8LossyDecode rest
    else if b < 0xE0 then
      match h2 : rest with
      | [] => [replacementChar]
      | c1 :: rest2 =>
        if isContByte c1 then
          Char.ofNat ((b - 0xC0) * 0x40 + (c1 - 0x80)) :: utf8LossyDecode rest2
        else replacementChar :: utf8LossyDecode (c1 :: rest2)
    else if b < 0xF0 then
      match h3 : rest with
      | c1 :: c2 :: rest3 =>
        if isContByte c1 && isContByte c2 then
          Char.ofNat ((b - 0xE0) * 0x1000 + (c1 - 0x80) * 0x40 + (c2 - 0x80)) ::
            utf8LossyDecode rest3
        else replacementChar :: utf8LossyDecode rest
      | _ => replacementChar :: utf8LossyDecode rest
    else if b < 0xF5 then
      match h4 : rest with
      | c1 :: c2 :: c3 :: rest4 =>
        if isContByte c1 && isContByte c2 && isContByte c3 then
          Char.ofNat ((b - 0xF0) * 0x40000 + (c1 - 0x80) * 0x1000 +
              (c2 - 0x80) * 0x40 + (c3 - 0x80)) :: utf8LossyDecode rest4
        else replacementChar :: utf8LossyDecode rest
      | _ => replacementChar :: utf8LossyDecode rest
    else replacementChar :: utf8LossyDecode rest
termination_by l => l.length
decreasing_by
  all_goals first
    | (simp only [List.length_cons]; omega)
    | (subst rest; simp only [List.length_cons]; omega)

/-- Outcome of a denied request: whether the handler disconnected the
transport, the disconnect reason handed to the engine, whether it was logged
as a security event, the characters of the payload included in the log, and
whether a process was spawned. -/
structure DenyOutcome where
  disconnected : Bool
  reason : String
  securityLogged : Bool
  loggedPayload : List Char
  processSpawned : Bool
deriving DecidableEq

/-- `SessionHandler::exec_request` (src/handler.rs lines 281-296): lossily
decode the payload, log a security event containing at most the first 100
decoded characters, disconnect with reason "exec not permitted", spawn
nothing. -/
def exec_request (data : List Nat) : DenyOutcome :=
  let cmd := utf8LossyDecode data
  { disconnected := true
    reason := "exec not permitted"
    securityLogged := true
    loggedPayload := cmd.take 100
    processSpawned := false }

/-- `SessionHandler::subsystem_request` (src/handler.rs lines 298-310): log a
security event containing the full subsystem name (no truncation in the
source), disconnect with reason "subsystem not permitted", spawn nothing. -/
def subsystem_request (name : String) : DenyOutcome :=
  { disconnected := true
    reason := "subsystem not permitted"
    securityLogged := true
    loggedPayload := name.data
    processSpawned := false }

/-- Outcome of a forwarding-type request: the boolean result returned to the
engine (`false` = denied / channel refused), whether the handler disconnected
the transport, and whether a process was spawned.  None of these handlers
confirms an auxiliary channel: confirming would require returning `true`. -/
structure ForwardOutcome where
  accepted : Bool
  disconnected : Bool
  processSpawned : Bool
deriving DecidableEq

/-- `SessionHandler::tcpip_forward` (src/handler.rs lines 356-368): log at
debug severity and return `Ok(false)`. -/
def tcpip_forward (address : String) (port : Nat) : ForwardOutcome :=
  { accepted := false, disconnected := false, processSpawned := false }

/-- `SessionHandler::cancel_tcpip_forward` (src/handler.rs lines 370-381). -/
def cancel_tcpip_forward (address : String) (port : Nat) : ForwardOutcome :=
  { accepted := false, disconnected := false, processSpawned := false }

/-- `SessionHandler::channel_open_direct_tcpip` (src/handler.rs lines
383-403): warn, drop the offered channel and return `Ok(false)`. -/
def channel_open_direct_tcpip (host : String) (port : Nat)
    (origHost : String) (origPort : Nat) : ForwardOutcome :=
  { accepted := false, disconnected := false, processSpawned := false }

/-- `SessionHandler::channel_open_forwarded_tcpip` (src/handler.rs lines
405-424). -/
def channel_open_forwarded_tcpip (host : String) (port : Nat)
    (origHost : String) (origPort : Nat) : ForwardOutcome :=
  { accepted := false, disconnected := false, processSpawned := false }

/-- `SessionHandler::channel_open_direct_streamlocal` (src/handler.rs lines
426-438). -/
def channel_open_direct_streamlocal (socketPath : String) : ForwardOutcome :=
  { accepted := false, disconnected := false, processSpawned := false }

/-- `SessionHandler::streamlocal_forward` (src/handler.rs lines 440-450). -/
def streamlocal_forward (socketPath : String) : ForwardOutcome :=
  { accepted := false, disconnected := false, processSpawned := false }

/-- `SessionHandler::cancel_streamlocal_forward` (src/handler.rs lines
452-462). -/
def cancel_streamlocal_forward (socketPath : String) : ForwardOutcome :=
  { accepted := false, disconnected := false, processSpawned := false }

/-- `SessionHandler::agent_request` (src/handler.rs lines 464-472). -/
def agent_request : ForwardOutcome :=
  { accepted := false, disconnected := false, processSpawned := false }

/-- Modelled from the spec: the per-session deadline mechanism.
`TuiSshServer` (src/server.rs lines 16-35) stores `max_session_duration` and
its `new_client` passes it to the `SessionHandler` constructor, but the
`SessionHandler` in src/handler.rs has no such field — the code that receives
and enforces the deadline is not under src/ (only its caller is).  Spec §3
"Session Deadline": an absolute point in time derived from a configured
maximum session duration, attached at session creation; when none is
configured, sessions have unbounded duration. -/
structure SessionClock where
  createdAt : Nat
  maxDuration : Option Nat
deriving DecidableEq

/-- Modelled from the spec: the absolute deadline attached at session
creation, derived from the configured maximum duration. -/
def sessionDeadline (s : SessionClock) : Option Nat :=
  s.maxDuration.map (fun d => s.createdAt + d)

/-- Modelled from the spec (§4.3): the session is force-terminated once the
deadline elapses, independent of channel activity (the check takes only the
clock, no activity input); with no configured maximum it never fires. -/
def sessionForceTerminated (s : SessionClock) (now : Nat) : Bool :=
  match sessionDeadline s with
  | some dl => decide (dl ≤ now)
  | none => false

/-- A concrete command configuration used to instantiate theorems. -/
def sampleCfg : CmdConfig := { command := "htop", args := [], env := [] }

/-- A concrete fresh handler used to instantiate theorems. -/
def sampleHandler : SessionHandler :=
  SessionHandler.new sampleCfg "198.51.100.7:50000" 1

/-- After any `shell_request`, the one-shot flag is set: the duplicate branch
only runs when it was already set, and both fresh branches set it before
anything else. -/
theorem shell_request_sets_flag (h : SessionHandler) (ch : Nat) (ok : Bool) :
    ((shell_request h ch ok).1).shell_requested = true := by
  by_cases hf : h.shell_requested <;> cases ok <;> simp [shell_request, hf]

/-- With the one-shot flag set, `shell_request` takes the duplicate branch:
state unchanged, a security log and a disconnect, nothing else. -/
theorem shell_request_dup (h : SessionHandler) (ch : Nat) (ok : Bool)
    (hf : h.shell_requested = true) :
    shell_request h ch ok =
      (h, [SessionAction.logSecurity (dupMsg h.client_addr),
           SessionAction.disconnect "duplicate shell request"]) := by
  simp [shell_request, hf]

/-- With the one-shot flag set, no later request in a run ever reaches
`PtySession::spawn`. -/
theorem runShellRequests_flagged (evs : List (Nat × Bool)) (h : SessionHandler)
    (hf : h.shell_requested = true) :
    (runShellRequests h evs).2.countP isSpawnAttempt = 0 ∧
    (runShellRequests h evs).2.countP isProcessSpawned = 0 := by
  induction evs generalizing h with
  | nil => simp [runShellRequests]
  | cons e rest ih =>
    have hd := shell_request_dup h e.1 e.2 hf
    have hrest := ih h hf
    simp [runShellRequests, hd, List.countP_append, List.countP_cons,
      isSpawnAttempt, isProcessSpawned, hrest.1, hrest.2]

/-- A single `shell_request` reaches `PtySession::spawn` at most once. -/
theorem shell_request_spawn_counts (h : SessionHandler) (ch : Nat) (ok : Bool) :
    (shell_request h ch ok).2.countP isSpawnAttempt ≤ 1 ∧
    (shell_request h ch ok).2.countP isProcessSpawned ≤ 1 := by
  by_cases hf : h.shell_requested <;> cases ok <;>
    simp [shell_request, hf, isSpawnAttempt, isProcessSpawned, List.countP_cons]

/-- Over any run of shell requests on one handler, `PtySession::spawn` is
reached at most once, so at most one child process is created. -/
theorem runShellRequests_le_one (evs : List (Nat × Bool)) (h : SessionHandler) :
    (runShellRequests h evs).2.countP isSpawnAttempt ≤ 1 ∧
    (runShellRequests h evs).2.countP isProcessSpawned ≤ 1 := by
  cases evs with
  | nil => simp [runShellRequests]
  | cons e rest =>
    have hstep := shell_request_spawn_counts h e.1 e.2
    have hflag := shell_request_sets_flag h e.1 e.2
    have hrest := runShellRequests_flagged rest (shell_request h e.1 e.2).1 hflag
    constructor <;>
      simp [runShellRequests, List.countP_append, hrest.1, hrest.2] <;>
      omega

/-- C3: for every sequence of shell requests on one connection (arbitrary
channel ids and spawn outcomes), at most one PTY process is ever spawned —
indeed `PtySession::spawn` is called at most once; and any `shell_request`
arriving after a prior `shell_request` produces exactly a security-tagged
error log and a transport disconnect with the explicit reason
"duplicate shell request", calling `PtySession::spawn` zero times. -/
theorem c3_single_shell_spawn (h g : SessionHandler) (evs : List (Nat × Bool))
    (ch1 ch2 : Nat) (ok1 ok2 : Bool) (hfresh : h.shell_requested = false) :
    (runShellRequests h evs).2.countP isProcessSpawned ≤ 1 ∧
    (runShellRequests h evs).2.countP isSpawnAttempt ≤ 1 ∧
    (shell_request (shell_request g ch1 ok1).1 ch2 ok2).2 =
      [SessionAction.logSecurity
        (dupMsg ((shell_request g ch1 ok1).1).client_addr),
       SessionAction.disconnect "duplicate shell request"] ∧
    (shell_request (shell_request g ch1 ok1).1 ch2 ok2).2.countP
      isSpawnAttempt = 0 ∧
    (shell_request (shell_request g ch1 ok1).1 ch2 ok2).2.countP
      isProcessSpawned = 0 := by
  have hle := runShellRequests_le_one evs h
  have hflag := shell_request_sets_flag g ch1 ok1
  have hd := shell_request_dup (shell_request g ch1 ok1).1 ch2 ok2 hflag
  refine ⟨hle.2, hle.1, ?_, ?_, ?_⟩ <;>
    simp [hd, List.countP_cons, isSpawnAttempt, isProcessSpawned]

/-- C3 witness: a concrete connection issuing two shell requests. -/
theorem c3_single_shell_spawn_witness :
    (runShellRequests sampleHandler [(0, true), (0, true)]).2.countP
      isProcessSpawned ≤ 1 ∧
    (runShellRequests sampleHandler [(0, true), (0, true)]).2.countP
      isSpawnAttempt ≤ 1 ∧
    (shell_request (shell_request sampleHandler 0 true).1 0 true).2 =
      [SessionAction.logSecurity
        (dupMsg ((shell_request sampleHandler 0 true).1).client_addr),
       SessionAction.disconnect "duplicate shell request"] ∧
    (shell_request (shell_request sampleHandler 0 true).1 0 true).2.countP
      isSpawnAttempt = 0 ∧
    (shell_request (shell_request sampleHandler 0 true).1 0 true).2.countP
      isProcessSpawned = 0 :=
  c3_single_shell_spawn sampleHandler sampleHandler [(0, true), (0, true)]
    0 0 true true rfl

/-- C5: for every requested pair of dimensions — below range, within range,
above range, zero, or exceeding the u16 range — the pair returned by
`clamp_pty_size` satisfies `10 ≤ cols ≤ 500` and `5 ≤ rows ≤ 200`. -/
theorem c5_clamp_pty_size_bounds (cols rows : Nat) :
    10 ≤ (clamp_pty_size cols rows).1 ∧ (clamp_pty_size cols rows).1 ≤ 500 ∧
    5 ≤ (clamp_pty_size cols rows).2 ∧ (clamp_pty_size cols rows).2 ≤ 200 := by
  simp only [clamp_pty_size, clampNat, MIN_PTY_COLS, MAX_PTY_COLS,
    MIN_PTY_ROWS, MAX_PTY_ROWS]
  refine ⟨?_, ?_, ?_, ?_⟩ <;> split <;> (try split) <;> omega

/-- C10: `clamp_pty_size` truncates each requested dimension modulo `2 ^ 16`
before clamping: adding any multiple of `2 ^ 16` to a requested dimension
leaves the result unchanged; requested cols 65537 yields 10 and requested
cols 65616 yields 80, not the upper bound 500. -/
theorem c10_clamp_truncates_mod_u16 (v k cols rows : Nat) :
    clamp_pty_size (v + k * U16_MOD) rows = clamp_pty_size v rows ∧
    clamp_pty_size cols (v + k * U16_MOD) = clamp_pty_size cols v ∧
    (clamp_pty_size 65537 24).1 = 10 ∧
    (clamp_pty_size 65616 24).1 = 80 ∧
    (clamp_pty_size 65616 24).1 ≠ 500 := by
  refine ⟨?_, ?_, by decide, by decide, by decide⟩ <;>
    simp [clamp_pty_size, Nat.add_mul_mod_self_right]

/-- C7: every forwarding-type request — remote port forward open/cancel,
direct and forwarded TCP channel open, Unix-domain forward open/cancel and
direct channel, agent forward — with arbitrary addresses, ports and socket
paths returns a denied result, does not disconnect and does not spawn. -/
theorem c7_forwarding_denied (address host origHost socketPath : String)
    (port origPort : Nat) :
    tcpip_forward address port = ⟨false, false, false⟩ ∧
    cancel_tcpip_forward address port = ⟨false, false, false⟩ ∧
    channel_open_direct_tcpip host port origHost origPort =
      ⟨false, false, false⟩ ∧
    channel_open_forwarded_tcpip host port origHost origPort =
      ⟨false, false, false⟩ ∧
    channel_open_direct_streamlocal socketPath = ⟨false, false, false⟩ ∧
    streamlocal_forward socketPath = ⟨false, false, false⟩ ∧
    cancel_streamlocal_forward socketPath = ⟨false, false, false⟩ ∧
    agent_request = ⟨false, false, false⟩ :=
  ⟨rfl, rfl, rfl, rfl, rfl, rfl, rfl, rfl⟩

/-- C6 is false as stated: `subsystem_request` logs the full subsystem name
without truncation, so a 101-character name puts 101 characters of payload in
the security log, more than the claimed 100. -/
theorem c6_subsystem_log_untruncated :
    (subsystem_request (String.mk (List.replicate 101 'a'))).loggedPayload.length
      = 101 ∧
    ¬((subsystem_request
        (String.mk (List.replicate 101 'a'))).loggedPayload.length ≤ 100) := by
  constructor <;> simp [subsystem_request]

/-- C6 amended: every exec or subsystem request disconnects the transport,
is logged as a security event, and never spawns a process; payload decoding
is total (lossy), so it never fails the handler; `exec_request` logs at most
100 characters of the decoded payload, while `subsystem_request` logs the
full subsystem name untruncated. -/
theorem c6_exec_subsystem_deny (data : List Nat) (name : String) :
    (exec_request data).disconnected = true ∧
    (exec_request data).securityLogged = true ∧
    (exec_request data).processSpawned = false ∧
    (exec_request data).reason = "exec not permitted" ∧
    (exec_request data).loggedPayload.length ≤ 100 ∧
    (subsystem_request name).disconnected = true ∧
    (subsystem_request name).securityLogged = true ∧
    (subsystem_request name).processSpawned = false ∧
    (subsystem_request name).reason = "subsystem not permitted" ∧
    (subsystem_request name).loggedPayload = name.data := by
  refine ⟨rfl, rfl, rfl, rfl, ?_, rfl, rfl, rfl, rfl, rfl⟩
  simp only [exec_request, List.length_take]
  exact Nat.min_le_left _ _

/-- C8: when the PTY spawn fails on the first shell request, the handler
answers `channel_failure` on that channel and nothing else: no disconnect, no
background forwarding task, no process, the per-channel writer map is
unchanged and the active-connection counter is unchanged. -/
theorem c8_spawn_failure_contained (h : SessionHandler) (ch : Nat)
    (hfresh : h.shell_requested = false) :
    (shell_request h ch false).2 =
      [SessionAction.spawnAttempt, SessionAction.channelFailure ch] ∧
    SessionAction.channelFailure ch ∈ (shell_request h ch false).2 ∧
    (shell_request h ch false).2.countP isDisconnect = 0 ∧
    (shell_request h ch false).2.countP isForwardTask = 0 ∧
    (shell_request h ch false).2.countP isProcessSpawned = 0 ∧
    ((shell_request h ch false).1).pty_writers = h.pty_writers ∧
    ((shell_request h ch false).1).active_connections =
      h.active_connections := by
  simp [shell_request, hfresh, isDisconnect, isForwardTask, isProcessSpawned,
    List.countP_cons]

/-- C8 witness: a concrete fresh handler whose spawn fails on channel 0. -/
theorem c8_spawn_failure_contained_witness :
    (shell_request sampleHandler 0 false).2 =
      [SessionAction.spawnAttempt, SessionAction.channelFailure 0] ∧
    SessionAction.channelFailure 0 ∈ (shell_request sampleHandler 0 false).2 ∧
    (shell_request sampleHandler 0 false).2.countP isDisconnect = 0 ∧
    (shell_request sampleHandler 0 false).2.countP isForwardTask = 0 ∧
    (shell_request sampleHandler 0 false).2.countP isProcessSpawned = 0 ∧
    ((shell_request sampleHandler 0 false).1).pty_writers =
      sampleHandler.pty_writers ∧
    ((shell_request sampleHandler 0 false).1).active_connections =
      sampleHandler.active_connections :=
  c8_spawn_failure_contained sampleHandler 0 rfl

/-- C9: the one-shot flag is set before the spawn is attempted, so after a
first shell request whose spawn fails — no process was created — every
subsequent shell request is treated as a duplicate: it disconnects with
reason "duplicate shell request" and never retries the spawn. -/
theorem c9_failed_spawn_no_retry (h : SessionHandler) (ch1 ch2 : Nat)
    (ok2 : Bool) (hfresh : h.shell_requested = false) :
    ((shell_request h ch1 false).1).shell_requested = true ∧
    (shell_request h ch1 false).2.countP isProcessSpawned = 0 ∧
    (shell_request (shell_request h ch1 false).1 ch2 ok2).2 =
      [SessionAction.logSecurity (dupMsg h.client_addr),
       SessionAction.disconnect "duplicate shell request"] ∧
    (shell_request (shell_request h ch1 false).1 ch2 ok2).2.countP
      isSpawnAttempt = 0 := by
  have hflag := shell_request_sets_flag h ch1 false
  have hd := shell_request_dup (shell_request h ch1 false).1 ch2 ok2 hflag
  have haddr : ((shell_request h ch1 false).1).client_addr = h.client_addr := by
    simp [shell_request, hfresh]
  refine ⟨hflag, ?_, ?_, ?_⟩ <;>
    simp [hd, haddr, shell_request, hfresh, List.countP_cons,
      isSpawnAttempt, isProcessSpawned]

/-- C9 witness: a concrete fresh handler, failed spawn, then a retry. -/
theorem c9_failed_spawn_no_retry_witness :
    ((shell_request sampleHandler 0 false).1).shell_requested = true ∧
    (shell_request sampleHandler 0 false).2.countP isProcessSpawned = 0 ∧
    (shell_request (shell_request sampleHandler 0 false).1 1 true).2 =
      [SessionAction.logSecurity (dupMsg sampleHandler.client_addr),
       SessionAction.disconnect "duplicate shell request"] ∧
    (shell_request (shell_request sampleHandler 0 false).1 1 true).2.countP
      isSpawnAttempt = 0 :=
  c9_failed_spawn_no_retry sampleHandler 0 1 true rfl

/-- C4 (spec-modelled deadline mechanism): when a maximum session duration is
configured, the session is force-terminated at any instant at or past the
deadline attached at creation, independent of channel activity (the predicate
takes no activity input); with no configured maximum the session is never
force-terminated. -/
theorem c4_session_deadline (s t : SessionClock) (now now2 d : Nat)
    (hs : s.maxDuration = some d) (hnow : s.createdAt + d ≤ now)
    (ht : t.maxDuration = none) :
    sessionForceTerminated s now = true ∧
    sessionForceTerminated t now2 = false := by
  constructor
  · simp [sessionForceTerminated, sessionDeadline, hs, hnow]
  · simp [sessionForceTerminated, sessionDeadline, ht]

/-- C4 witness: a session created at 0 with a 5-unit cap is terminated at 5;
a session with no cap is still alive at 7. -/
theorem c4_session_deadline_witness :
    sessionForceTerminated ⟨0, some 5⟩ 5 = true ∧
    sessionForceTerminated ⟨0, none⟩ 7 = false :=
  c4_session_deadline ⟨0, some 5⟩ ⟨0, none⟩ 5 7 5 rfl (by decide) rfl

/-- C1 fails on the code: with `max_connections = 1`, after an admitted
connection and a second, over-limit arrival (rolled back but with a handler
still constructed), dropping both handlers decrements the counter three times
against two increments.  After the first drop the counter is already 0 while
one admitted connection is still alive, and the second drop wraps the
`AtomicUsize` to `2 ^ 64 - 1` — the rejected connection was decremented twice
(rollback in `new_client` plus its handler's `Drop`). -/
theorem c1_rejected_path_double_decrement :
    (runServer sampleCfg 1 ⟨0, 0⟩
      [ConnEv.arrive, ConnEv.arrive, ConnEv.dropHandler]).counter = 0 ∧
    (runServer sampleCfg 1 ⟨0, 0⟩
      [ConnEv.arrive, ConnEv.arrive, ConnEv.dropHandler]).alive = 1 ∧
    (runServer sampleCfg 1 ⟨0, 0⟩
      [ConnEv.arrive, ConnEv.arrive, ConnEv.dropHandler,
       ConnEv.dropHandler]).counter = USIZE_MOD - 1 :=
  ⟨rfl, rfl, rfl⟩

/-- C2 fails on the code: on an over-limit arrival (`max_connections = 1`,
pre-increment counter already 1) `new_client` rolls back the increment and
warns, but still constructs a `SessionHandler` and returns it to the protocol
engine — the connection is not rejected before the handshake. -/
theorem c2_over_limit_handler_still_returned :
    (new_client sampleCfg 1 1 "peer").limitWarned = true ∧
    (new_client sampleCfg 1 1 "peer").counter = 1 ∧
    (new_client sampleCfg 1 1 "peer").handler =
      SessionHandler.new sampleCfg "peer" 1 :=
  ⟨rfl, rfl, rfl⟩

end Tuihost
